import Mathlib

/-!
Shallow embedding of the settings subsystem of the MQTT433gateway
repository (Settings.cpp).  The JSON parsing primitives, the persistent
file store and the log sink are external collaborators (spec section 1):
a parsed configuration text is represented by a typed key-value document
(`ParsedDoc`, one optional entry per schema field), parse failure by
`none`, and the persistent store by an `Option` holding the parse result
of the stored text.  The pre-serialized radio-protocol array field is
represented by the list of protocol names its compact printed text
denotes; compact printing of such arrays is injective, so comparing the
printed texts (Settings.cpp lines 195-202) corresponds to comparing the
lists.  Listener callbacks are external effects; a callback is identified
by a numeric id and an invocation is its appearance in the returned
invocation list.
-/

set_option autoImplicit false

namespace MQTT433

/-- Modelled from the spec: the settings record (field schema of spec
section 6; the header declaring the C++ struct is not among the sources).
Log-level fields are carried as strings; the covered code only copies and
compares them, so their representation is immaterial.  `rfProtocols` is
the pre-serialized array field, represented by the protocol-name list its
canonical printed text denotes. -/
structure Settings where
  deviceName : String
  mdnsName : String
  mqttReceiveTopic : String
  mqttSendTopic : String
  mqttOtaTopic : String
  mqttBroker : String
  mqttBrokerPort : Nat
  mqttUser : String
  mqttPassword : String
  mqttRetain : Bool
  rfReceiverPin : Int
  rfTransmitterPin : Int
  rfEchoMessages : Bool
  rfProtocols : List String
  otaUrl : String
  serialLogLevel : String
  webLogLevel : String
  syslogLevel : String
  syslogHost : String
  syslogPort : Nat
  configPassword : String
deriving DecidableEq

/-- A successfully parsed configuration document, viewed through the
field schema: one optional entry per key (`none` = key absent,
`some v` = key present with typed value `v`).  The text-to-document
parser itself is the external collaborator of spec section 6. -/
structure ParsedDoc where
  deviceName : Option String
  mdnsName : Option String
  mqttReceiveTopic : Option String
  mqttSendTopic : Option String
  mqttOtaTopic : Option String
  mqttBroker : Option String
  mqttBrokerPort : Option Nat
  mqttUser : Option String
  mqttPassword : Option String
  mqttRetain : Option Bool
  rfReceiverPin : Option Int
  rfTransmitterPin : Option Int
  rfEchoMessages : Option Bool
  rfProtocols : Option (List String)
  otaUrl : Option String
  serialLogLevel : Option String
  webLogLevel : Option String
  syslogLevel : Option String
  syslogHost : Option String
  syslogPort : Option Nat
  configPassword : Option String
deriving DecidableEq

/-- The document with every key absent. -/
def ParsedDoc.empty : ParsedDoc :=
  ⟨none, none, none, none, none, none, none, none, none, none, none,
   none, none, none, none, none, none, none, none, none, none⟩

/-- The setting categories (SettingType): the enumerators used by
Settings.cpp. -/
inductive SettingType where
  | BASE
  | MQTT
  | RF_CONFIG
  | RF_ECHO
  | RF_PROTOCOL
  | OTA
  | LOGGING
  | WEB_CONFIG
  | SYSLOG
deriving DecidableEq

/-- SettingTypeSet: the fixed-width bitset indexed by SettingType. -/
structure SettingTypeSet where
  base : Bool
  mqtt : Bool
  rfConfig : Bool
  rfEcho : Bool
  rfProtocol : Bool
  ota : Bool
  logging : Bool
  webConfig : Bool
  syslog : Bool
deriving DecidableEq

/-- The empty bitset (default-constructed SettingTypeSet). -/
def SettingTypeSet.empty : SettingTypeSet :=
  ⟨false, false, false, false, false, false, false, false, false⟩

/-- The full bitset (SettingTypeSet with every bit set, as produced by
the no-argument set()). -/
def SettingTypeSet.all : SettingTypeSet :=
  ⟨true, true, true, true, true, true, true, true, true⟩

/-- Per-bit test (typeSet[t]). -/
def SettingTypeSet.get (ts : SettingTypeSet) : SettingType → Bool
  | SettingType.BASE => ts.base
  | SettingType.MQTT => ts.mqtt
  | SettingType.RF_CONFIG => ts.rfConfig
  | SettingType.RF_ECHO => ts.rfEcho
  | SettingType.RF_PROTOCOL => ts.rfProtocol
  | SettingType.OTA => ts.ota
  | SettingType.LOGGING => ts.logging
  | SettingType.WEB_CONFIG => ts.webConfig
  | SettingType.SYSLOG => ts.syslog

/-- A registered listener entry: a category of interest paired with a
callback.  The callback body is an external effect; it is identified
here by a numeric id. -/
structure Listener where
  type : SettingType
  id : Nat
deriving DecidableEq

/-- Settings.registerChangeHandler: prepends the new entry to the
listener list (emplace_front). -/
def registerChangeHandler (listeners : List Listener) (setting : SettingType)
    (callback : Nat) : List Listener :=
  Listener.mk setting callback :: listeners

/-- Settings.onConfigChange: walks the listener list in order and
invokes every callback whose registered category bit is set in the
given set.  The result is the invocation list, in invocation order; the
settings record is passed to each callback by read-only reference, so
notification never mutates the record. -/
def onConfigChange (listeners : List Listener) (typeSet : SettingTypeSet) :
    List Listener :=
  match listeners with
  | [] => []
  | l :: rest =>
      if typeSet.get l.type then l :: onConfigChange rest typeSet
      else onConfigChange rest typeSet

/-- notEmpty: the non-empty-string validator. -/
def notEmpty : String → Bool :=
  fun str => decide (str.length > 0)

/-- notZero: the non-zero numeric validator (instantiated in the source
only at the uint16 port type). -/
def notZero : Nat → Bool :=
  fun val => decide (val ≠ 0)

/-- Evaluation of the optional validator: an absent validator accepts
everything (the !validator || validator(tmp) test of setIfPresent). -/
def checkValidator {α : Type} (validator : Option (α → Bool)) (tmp : α) : Bool :=
  match validator with
  | none => true
  | some v => v tmp

/-- setIfPresent: the field-assignment primitive.  `entry` is the typed
document entry for the key (`none` = key absent).  Returns the new field
value and whether it changed: the value is written exactly when the key
is present, the extracted value differs from the current one, and the
optional validator accepts it. -/
def setIfPresent {α : Type} [DecidableEq α] (entry : Option α)
    (validator : Option (α → Bool)) (var : α) : α × Bool :=
  match entry with
  | some tmp =>
      if tmp ≠ var ∧ checkValidator validator tmp = true then (tmp, true)
      else (var, false)
  | none => (var, false)

/-- The inline rfProtocols handling of deserialize (Settings.cpp lines
195-202): if the key is present, the parsed value is printed back to
compact text and compared with the stored pre-serialized text; on
difference it replaces the stored text and flags the category.  With the
list representation of canonical printed arrays this is a comparison and
conditional assignment of lists. -/
def setProtocols (entry : Option (List String)) (var : List String) :
    List String × Bool :=
  match entry with
  | some buff => if buff ≠ var then (buff, true) else (var, false)
  | none => (var, false)

/-- The field-application part of Settings.deserialize, after a
successful parse: every schema field is run through the
field-assignment primitive (with the validators exactly as in
Settings.cpp lines 163-217) and the per-category changed bits are the
disjunctions of the per-field results. -/
def deserializeDoc (s : Settings) (d : ParsedDoc) : Settings × SettingTypeSet :=
  let deviceName := setIfPresent d.deviceName (some notEmpty) s.deviceName
  let mdnsName := setIfPresent d.mdnsName (some notEmpty) s.mdnsName
  let mqttReceiveTopic := setIfPresent d.mqttReceiveTopic none s.mqttReceiveTopic
  let mqttSendTopic := setIfPresent d.mqttSendTopic none s.mqttSendTopic
  let mqttOtaTopic := setIfPresent d.mqttOtaTopic none s.mqttOtaTopic
  let mqttBroker := setIfPresent d.mqttBroker (some notEmpty) s.mqttBroker
  let mqttBrokerPort := setIfPresent d.mqttBrokerPort (some notZero) s.mqttBrokerPort
  let mqttUser := setIfPresent d.mqttUser none s.mqttUser
  let mqttPassword := setIfPresent d.mqttPassword (some notEmpty) s.mqttPassword
  let mqttRetain := setIfPresent d.mqttRetain none s.mqttRetain
  let rfReceiverPin := setIfPresent d.rfReceiverPin none s.rfReceiverPin
  let rfTransmitterPin := setIfPresent d.rfTransmitterPin none s.rfTransmitterPin
  let rfEchoMessages := setIfPresent d.rfEchoMessages none s.rfEchoMessages
  let rfProtocols := setProtocols d.rfProtocols s.rfProtocols
  let otaUrl := setIfPresent d.otaUrl none s.otaUrl
  let serialLogLevel := setIfPresent d.serialLogLevel none s.serialLogLevel
  let webLogLevel := setIfPresent d.webLogLevel none s.webLogLevel
  let syslogLevel := setIfPresent d.syslogLevel none s.syslogLevel
  let syslogHost := setIfPresent d.syslogHost none s.syslogHost
  let syslogPort := setIfPresent d.syslogPort none s.syslogPort
  let configPassword := setIfPresent d.configPassword (some notEmpty) s.configPassword
  (⟨deviceName.1, mdnsName.1, mqttReceiveTopic.1, mqttSendTopic.1,
    mqttOtaTopic.1, mqttBroker.1, mqttBrokerPort.1, mqttUser.1,
    mqttPassword.1, mqttRetain.1, rfReceiverPin.1, rfTransmitterPin.1,
    rfEchoMessages.1, rfProtocols.1, otaUrl.1, serialLogLevel.1,
    webLogLevel.1, syslogLevel.1, syslogHost.1, syslogPort.1,
    configPassword.1⟩,
   ⟨deviceName.2 || mdnsName.2,
    mqttReceiveTopic.2 || mqttSendTopic.2 || mqttOtaTopic.2 ||
      mqttBroker.2 || mqttBrokerPort.2 || mqttUser.2 ||
      mqttPassword.2 || mqttRetain.2,
    rfReceiverPin.2 || rfTransmitterPin.2,
    rfEchoMessages.2,
    rfProtocols.2,
    otaUrl.2,
    serialLogLevel.2 || webLogLevel.2,
    configPassword.2,
    syslogLevel.2 || syslogHost.2 || syslogPort.2⟩)

/-- Settings.deserialize: `parsed` is the parse result of the input text
(`none` = parse failure, which logs a warning and returns before any
field is touched).  On success the fields are applied and, when
`fireCallbacks` is set, onConfigChange runs with the accumulated
category set.  The middle component exposes the internal changed set
(observable in the source only through listener invocation), the last
component the invocation list. -/
def deserialize (s : Settings) (listeners : List Listener)
    (parsed : Option ParsedDoc) (fireCallbacks : Bool) :
    Settings × SettingTypeSet × List Listener :=
  match parsed with
  | none => (s, SettingTypeSet.empty, [])
  | some d =>
      let r := deserializeDoc s d
      (r.1, r.2, if fireCallbacks then onConfigChange listeners r.2 else [])

/-- The persistent store, seen through the external parser: `none` = no
persisted document; `some contents` = a document exists whose text
parses to `contents` (itself `none` when that text is malformed). -/
abbrev Storage : Type := Option (Option ParsedDoc)

/-- Settings.load: if a persisted document exists its contents (read up
to the terminator byte) go through deserialize with callbacks
suppressed; then listeners fire for all categories unconditionally.
Returns the resulting record and the invocation list. -/
def load (s : Settings) (listeners : List Listener) (st : Storage) :
    Settings × List Listener :=
  match st with
  | some contents =>
      let r := deserialize s listeners contents false
      (r.1, onConfigChange listeners SettingTypeSet.all)
  | none => (s, onConfigChange listeners SettingTypeSet.all)

/-- Settings.serialize, viewed through the parse of its output text: the
document it builds before printing.  All schema fields are emitted; the
two credential fields only when `sensible` is true; the stored
rfProtocols text is re-parsed and re-emitted as a nested array, which in
the list representation is the stored list itself.  The pretty flag of
the source only selects the print layout and does not affect the
document. -/
def serializeDoc (s : Settings) (sensible : Bool) : ParsedDoc :=
  ⟨some s.deviceName, some s.mdnsName, some s.mqttReceiveTopic,
   some s.mqttSendTopic, some s.mqttOtaTopic, some s.mqttBroker,
   some s.mqttBrokerPort, some s.mqttUser,
   if sensible then some s.mqttPassword else none,
   some s.mqttRetain, some s.rfReceiverPin, some s.rfTransmitterPin,
   some s.rfEchoMessages, some s.rfProtocols, some s.otaUrl,
   some s.serialLogLevel, some s.webLogLevel, some s.syslogLevel,
   some s.syslogHost, some s.syslogPort,
   if sensible then some s.configPassword else none⟩

/-- Settings.save: opens the settings file for writing; on failure the
error is logged and the store is left as it was, otherwise
serialize(file, false, true) overwrites it.  `openOk` models the
external open result; the stored text parses back to the serialized
document (external parser contract). -/
def save (s : Settings) (openOk : Bool) (st : Storage) : Storage :=
  if openOk then some (some (serializeDoc s true)) else st

/-- Settings.reset: removes the persisted document when it exists and
otherwise does nothing; the in-memory record is untouched and no
listener is invoked (empty invocation list). -/
def reset (s : Settings) (st : Storage) : Settings × Storage × List Listener :=
  if Option.isSome st then (s, (none : Storage), ([] : List Listener))
  else (s, st, ([] : List Listener))

/-- Settings.updateOtaUrl: overwrites the otaUrl field unconditionally;
nothing else happens (no category recording, no notification: the empty
invocation list). -/
def updateOtaUrl (s : Settings) (otaUrl : String) : Settings × List Listener :=
  ({ s with otaUrl := otaUrl }, [])

/-!  Helper lemmas shared by the claim theorems. -/

/-- An absent key never changes the field. -/
theorem setIfPresent_none {α : Type} [DecidableEq α]
    (validator : Option (α → Bool)) (var : α) :
    setIfPresent none validator var = (var, false) := rfl

/-- Extracting the current value never changes the field. -/
theorem setIfPresent_self {α : Type} [DecidableEq α]
    (validator : Option (α → Bool)) (var : α) :
    setIfPresent (some var) validator var = (var, false) := by
  simp [setIfPresent]

/-- A second application of the primitive on its own output never
changes the field again. -/
theorem setIfPresent_idem {α : Type} [DecidableEq α] (entry : Option α)
    (validator : Option (α → Bool)) (var : α) :
    setIfPresent entry validator (setIfPresent entry validator var).1 =
      ((setIfPresent entry validator var).1, false) := by
  match entry with
  | none => rfl
  | some tmp =>
      by_cases h : tmp ≠ var ∧ checkValidator validator tmp = true
      · simp [setIfPresent, h]
      · simp [setIfPresent, h]

/-- The rfProtocols handler on an identical stored value is a no-op. -/
theorem setProtocols_self (var : List String) :
    setProtocols (some var) var = (var, false) := by
  simp [setProtocols]

/-- A second application of the rfProtocols handler never changes the
field again. -/
theorem setProtocols_idem (entry : Option (List String)) (var : List String) :
    setProtocols entry (setProtocols entry var).1 =
      ((setProtocols entry var).1, false) := by
  match entry with
  | none => rfl
  | some buff =>
      by_cases h : buff ≠ var
      · simp [setProtocols, h]
      · simp [setProtocols, h]

/-- Every bit of the full set is set. -/
theorem SettingTypeSet.get_all (t : SettingType) :
    SettingTypeSet.all.get t = true := by
  cases t <;> rfl

/-- No bit of the empty set is set. -/
theorem SettingTypeSet.get_empty (t : SettingType) :
    SettingTypeSet.empty.get t = false := by
  cases t <;> rfl

/-- Notification with every category set invokes every registered
listener, in list order, exactly once. -/
theorem onConfigChange_all (listeners : List Listener) :
    onConfigChange listeners SettingTypeSet.all = listeners := by
  induction listeners with
  | nil => rfl
  | cons l rest ih => simp [onConfigChange, SettingTypeSet.get_all, ih]

/-- Notification with no category set invokes no listener. -/
theorem onConfigChange_empty (listeners : List Listener) :
    onConfigChange listeners SettingTypeSet.empty = [] := by
  induction listeners with
  | nil => rfl
  | cons l rest ih => simp [onConfigChange, SettingTypeSet.get_empty, ih]

/-- A listener is invoked exactly when it is registered and its category
bit is in the changed set. -/
theorem mem_onConfigChange (listeners : List Listener) (ts : SettingTypeSet)
    (l : Listener) :
    l ∈ onConfigChange listeners ts ↔ l ∈ listeners ∧ ts.get l.type = true := by
  induction listeners with
  | nil => simp [onConfigChange]
  | cons a rest ih =>
      cases h : ts.get a.type with
      | true =>
          simp only [onConfigChange, h, if_true, List.mem_cons, ih]
          constructor
          · rintro (rfl | ⟨hm, hg⟩)
            · exact ⟨Or.inl rfl, h⟩
            · exact ⟨Or.inr hm, hg⟩
          · rintro ⟨rfl | hm, hg⟩
            · exact Or.inl rfl
            · exact Or.inr ⟨hm, hg⟩
      | false =>
          simp only [onConfigChange, h, Bool.false_eq_true, if_false, ih,
            List.mem_cons]
          constructor
          · rintro ⟨hm, hg⟩
            exact ⟨Or.inr hm, hg⟩
          · rintro ⟨rfl | hm, hg⟩
            · rw [h] at hg
              exact absurd hg Bool.false_ne_true
            · exact ⟨hm, hg⟩

/-- The concrete document of the C1 and C6 scenarios: mqttBroker
10.0.0.5 together with mqttBrokerPort 0, nothing else. -/
def docScenario : ParsedDoc :=
  { ParsedDoc.empty with
      mqttBroker := some "10.0.0.5"
      mqttBrokerPort := some 0 }

/-- A concrete sample record used by witnesses (the compiled-in default
values live in the header, which is not among the sources; any record
works for the witnesses). -/
def sampleSettings : Settings :=
  ⟨"rfESP", "rfESP", "rfESP/recv/", "rfESP/send/", "rfESP/ota/",
   "192.168.0.2", 1883, "mqttuser", "mqttpass", true, 12, 4, false,
   ["1", "2"], "http://example.org/firmware.bin", "debug", "info",
   "warning", "loghost", 514, "cfgpass"⟩

/-- C1: the field-assignment primitive returns false and leaves the
current value unchanged when the key is absent, when the extracted value
equals the current value (comparison by value), or when a supplied
validator rejects the extracted value; otherwise it writes the extracted
value and returns true.  Deserializing the scenario document (mqttBroker
10.0.0.5 together with mqttBrokerPort 0) over a record whose mqttBroker
differs updates mqttBroker and marks the MQTT category changed, while
mqttBrokerPort keeps its prior value because zero fails the non-zero
validator. -/
theorem c1_setIfPresent_spec {α : Type} [DecidableEq α] (var : α) :
    (∀ validator : Option (α → Bool),
        setIfPresent none validator var = (var, false))
    ∧ (∀ validator : Option (α → Bool),
        setIfPresent (some var) validator var = (var, false))
    ∧ (∀ (f : α → Bool) (tmp : α), f tmp = false →
        setIfPresent (some tmp) (some f) var = (var, false))
    ∧ (∀ (validator : Option (α → Bool)) (tmp : α), tmp ≠ var →
        checkValidator validator tmp = true →
        setIfPresent (some tmp) validator var = (tmp, true))
    ∧ (∀ s : Settings, s.mqttBroker ≠ "10.0.0.5" →
        deserializeDoc s docScenario =
          ({ s with mqttBroker := "10.0.0.5" },
           { SettingTypeSet.empty with mqtt := true })) := by
  refine ⟨fun validator => rfl, fun validator => setIfPresent_self _ _,
    ?_, ?_, ?_⟩
  · intro f tmp hf
    simp [setIfPresent, checkValidator, hf]
  · intro validator tmp hne hv
    simp [setIfPresent, hne, hv]
  · intro s hs
    have h1 : notEmpty "10.0.0.5" = true := by decide
    have h2 : notZero 0 = false := by decide
    simp [deserializeDoc, docScenario, ParsedDoc.empty, setIfPresent,
      setProtocols, checkValidator, h1, h2, Ne.symm hs,
      SettingTypeSet.empty]

/-- C1 witness: the rejection of an empty string by the non-empty
validator, a successful assignment, and the concrete scenario on the
sample record. -/
theorem c1_witness :
    setIfPresent (some "") (some notEmpty) "a" = ("a", false)
    ∧ setIfPresent (some "10.0.0.5") (some notEmpty) "" = ("10.0.0.5", true)
    ∧ deserializeDoc sampleSettings docScenario =
        ({ sampleSettings with mqttBroker := "10.0.0.5" },
         { SettingTypeSet.empty with mqtt := true }) :=
  ⟨(c1_setIfPresent_spec "a").2.2.1 notEmpty "" (by decide),
   (c1_setIfPresent_spec "").2.2.2.1 (some notEmpty) "10.0.0.5" (by decide)
     (by decide),
   (c1_setIfPresent_spec "").2.2.2.2 sampleSettings (by decide)⟩

/-- C2: on parse failure deserialize leaves every field unchanged,
records no category as changed and invokes no listener, whatever the
fire-callbacks flag. -/
theorem c2_parse_failure_noop (s : Settings) (listeners : List Listener)
    (fireCallbacks : Bool) :
    deserialize s listeners none fireCallbacks =
      (s, SettingTypeSet.empty, []) := rfl

/-- C3: serialize with the sensitive fields included, followed by
deserialize on the result, reproduces the settings record field for
field (the rfProtocols pre-serialized array field included). -/
theorem c3_roundtrip (s : Settings) :
    (deserializeDoc s (serializeDoc s true)).1 = s := by
  simp [deserializeDoc, serializeDoc, setIfPresent_self, setProtocols_self]

/-- C4: a second deserialize of the same parseable document marks no
category as changed, leaves the record where the first call put it, and
with fire-callbacks set invokes no listener. -/
theorem c4_idempotent (s : Settings) (d : ParsedDoc)
    (listeners : List Listener) :
    deserialize (deserializeDoc s d).1 listeners (some d) true =
      ((deserializeDoc s d).1, SettingTypeSet.empty, []) := by
  have h : deserializeDoc (deserializeDoc s d).1 d =
      ((deserializeDoc s d).1, SettingTypeSet.empty) := by
    simp [deserializeDoc, setIfPresent_idem, setProtocols_idem,
      SettingTypeSet.empty]
  simp [deserialize, h, onConfigChange_empty]

/-- C5: load runs the persisted document, when one exists, through
deserialize with notification suppressed (no listener fires at that
stage), then fires the notification step with every category set whether
or not a document exists, so the invocation list is always the whole
registration list; on first-ever boot (no persisted document) the fields
keep their prior, compiled-in default values and every registered
listener fires exactly once. -/
theorem c5_load_spec (s : Settings) (listeners : List Listener) :
    (∀ st : Storage, (load s listeners st).2 = listeners)
    ∧ (∀ contents : Option ParsedDoc,
        (load s listeners (some contents)).1 =
          (deserialize s listeners contents false).1
        ∧ (deserialize s listeners contents false).2.2 = [])
    ∧ load s listeners none = (s, listeners) := by
  refine ⟨?_, ?_, ?_⟩
  · intro st
    cases st <;> simp [load, onConfigChange_all]
  · intro contents
    cases contents <;> simp [load, deserialize]
  · simp [load, onConfigChange_all]

/-- C6: onConfigChange invokes exactly the registered listeners whose
category of interest lies in the changed set (the record itself is
passed read-only and never mutated by notification); in particular a
listener registered only for RF_CONFIG is not invoked by a deserialize
call of the scenario document, whose only possible change is mqttBroker
in the MQTT category. -/
theorem c6_onConfigChange_spec :
    (∀ (listeners : List Listener) (ts : SettingTypeSet) (l : Listener),
        l ∈ onConfigChange listeners ts ↔
          l ∈ listeners ∧ ts.get l.type = true)
    ∧ (∀ (s : Settings) (cb : Nat),
        (deserialize s [Listener.mk SettingType.RF_CONFIG cb]
            (some docScenario) true).2.2 = []) := by
  refine ⟨mem_onConfigChange, ?_⟩
  intro s cb
  simp [deserialize, deserializeDoc, docScenario, ParsedDoc.empty,
    setIfPresent, setProtocols, onConfigChange, SettingTypeSet.get]

/-- C7: serialize emits every schema field except that the two
credential fields appear exactly when the sensitive flag is set; save
always serializes with the sensitive flag set, so the persisted document
carries both credential fields. -/
theorem c7_serialize_sensitive (s : Settings) (sensible : Bool) :
    ((serializeDoc s sensible).mqttPassword =
        if sensible then some s.mqttPassword else none)
    ∧ ((serializeDoc s sensible).configPassword =
        if sensible then some s.configPassword else none)
    ∧ (serializeDoc s sensible).deviceName = some s.deviceName
    ∧ (serializeDoc s sensible).mdnsName = some s.mdnsName
    ∧ (serializeDoc s sensible).mqttReceiveTopic = some s.mqttReceiveTopic
    ∧ (serializeDoc s sensible).mqttSendTopic = some s.mqttSendTopic
    ∧ (serializeDoc s sensible).mqttOtaTopic = some s.mqttOtaTopic
    ∧ (serializeDoc s sensible).mqttBroker = some s.mqttBroker
    ∧ (serializeDoc s sensible).mqttBrokerPort = some s.mqttBrokerPort
    ∧ (serializeDoc s sensible).mqttUser = some s.mqttUser
    ∧ (serializeDoc s sensible).mqttRetain = some s.mqttRetain
    ∧ (serializeDoc s sensible).rfReceiverPin = some s.rfReceiverPin
    ∧ (serializeDoc s sensible).rfTransmitterPin = some s.rfTransmitterPin
    ∧ (serializeDoc s sensible).rfEchoMessages = some s.rfEchoMessages
    ∧ (serializeDoc s sensible).rfProtocols = some s.rfProtocols
    ∧ (serializeDoc s sensible).otaUrl = some s.otaUrl
    ∧ (serializeDoc s sensible).serialLogLevel = some s.serialLogLevel
    ∧ (serializeDoc s sensible).webLogLevel = some s.webLogLevel
    ∧ (serializeDoc s sensible).syslogLevel = some s.syslogLevel
    ∧ (serializeDoc s sensible).syslogHost = some s.syslogHost
    ∧ (serializeDoc s sensible).syslogPort = some s.syslogPort
    ∧ (∀ st : Storage, save s true st = some (some (serializeDoc s true)))
    ∧ (serializeDoc s true).mqttPassword = some s.mqttPassword
    ∧ (serializeDoc s true).configPassword = some s.configPassword := by
  cases sensible <;> simp [serializeDoc, save]

/-- C8: reset removes the persisted document when it exists and
otherwise does nothing, leaves the in-memory record untouched and
invokes no listener; a subsequent load finds no persisted document, so
it keeps the in-memory (compiled-in default) record rather than any
previously saved values, and fires all listeners. -/
theorem c8_reset_spec (s : Settings) (st : Storage)
    (listeners : List Listener) :
    reset s st = (s, (none : Storage), ([] : List Listener))
    ∧ (load s listeners (reset s st).2.1).1 = s
    ∧ (load s listeners (reset s st).2.1).2 = listeners := by
  cases st <;> simp [reset, load, onConfigChange_all]

/-- C9: updateOtaUrl overwrites the otaUrl field unconditionally, for
any string including the empty one and the current value, with no
presence check, comparison or validation; it invokes no listener and
leaves every other field unchanged. -/
theorem c9_updateOtaUrl_spec (s : Settings) (u : String) :
    (updateOtaUrl s u).1.otaUrl = u
    ∧ (updateOtaUrl s u).2 = []
    ∧ (updateOtaUrl s u).1.deviceName = s.deviceName
    ∧ (updateOtaUrl s u).1.mdnsName = s.mdnsName
    ∧ (updateOtaUrl s u).1.mqttReceiveTopic = s.mqttReceiveTopic
    ∧ (updateOtaUrl s u).1.mqttSendTopic = s.mqttSendTopic
    ∧ (updateOtaUrl s u).1.mqttOtaTopic = s.mqttOtaTopic
    ∧ (updateOtaUrl s u).1.mqttBroker = s.mqttBroker
    ∧ (updateOtaUrl s u).1.mqttBrokerPort = s.mqttBrokerPort
    ∧ (updateOtaUrl s u).1.mqttUser = s.mqttUser
    ∧ (updateOtaUrl s u).1.mqttPassword = s.mqttPassword
    ∧ (updateOtaUrl s u).1.mqttRetain = s.mqttRetain
    ∧ (updateOtaUrl s u).1.rfReceiverPin = s.rfReceiverPin
    ∧ (updateOtaUrl s u).1.rfTransmitterPin = s.rfTransmitterPin
    ∧ (updateOtaUrl s u).1.rfEchoMessages = s.rfEchoMessages
    ∧ (updateOtaUrl s u).1.rfProtocols = s.rfProtocols
    ∧ (updateOtaUrl s u).1.serialLogLevel = s.serialLogLevel
    ∧ (updateOtaUrl s u).1.webLogLevel = s.webLogLevel
    ∧ (updateOtaUrl s u).1.syslogLevel = s.syslogLevel
    ∧ (updateOtaUrl s u).1.syslogHost = s.syslogHost
    ∧ (updateOtaUrl s u).1.syslogPort = s.syslogPort
    ∧ (updateOtaUrl s u).1.configPassword = s.configPassword := by
  simp [updateOtaUrl]

/-- A family of probe documents for the validator map: every validated
field carries the value its validator rejects (the empty string for the
five non-empty-guarded fields, zero for the non-zero-guarded port) and
every other field carries a value that differs from the record (the
empty string or zero as degenerate values, the negated flag for the two
booleans, the empty list for the protocol array). -/
def docValidators (s : Settings) : ParsedDoc :=
  ⟨some "", some "", some "", some "", some "", some "", some 0, some "",
   some "", some (!s.mqttRetain), some 0, some 0,
   some (!s.rfEchoMessages), some [], some "", some "", some "", some "",
   some "", some 0, some ""⟩

/-- C10: exactly deviceName, mdnsName, mqttBroker, mqttPassword and
configPassword are guarded by the non-empty validator and exactly
mqttBrokerPort by the non-zero validator, every other field being
assigned without validation: on the probe document the six guarded
fields keep their prior values and contribute no category change (BASE
and WEB_CONFIG stay unchanged), while every unguarded field accepts its
degenerate value — syslogPort becomes 0 and SYSLOG marks changed even
though the same value is rejected for mqttBrokerPort. -/
theorem c10_validator_map (s : Settings)
    (h1 : s.mqttReceiveTopic ≠ "") (h2 : s.mqttSendTopic ≠ "")
    (h3 : s.mqttOtaTopic ≠ "") (h4 : s.mqttUser ≠ "")
    (h5 : s.rfReceiverPin ≠ 0) (h6 : s.rfTransmitterPin ≠ 0)
    (h7 : s.rfProtocols ≠ []) (h8 : s.otaUrl ≠ "")
    (h9 : s.serialLogLevel ≠ "") (h10 : s.webLogLevel ≠ "")
    (h11 : s.syslogLevel ≠ "") (h12 : s.syslogHost ≠ "")
    (h13 : s.syslogPort ≠ 0) :
    deserializeDoc s (docValidators s) =
      ({ s with
          mqttReceiveTopic := ""
          mqttSendTopic := ""
          mqttOtaTopic := ""
          mqttUser := ""
          mqttRetain := !s.mqttRetain
          rfReceiverPin := 0
          rfTransmitterPin := 0
          rfEchoMessages := !s.rfEchoMessages
          rfProtocols := []
          otaUrl := ""
          serialLogLevel := ""
          webLogLevel := ""
          syslogLevel := ""
          syslogHost := ""
          syslogPort := 0 },
       { SettingTypeSet.empty with
          mqtt := true
          rfConfig := true
          rfEcho := true
          rfProtocol := true
          ota := true
          logging := true
          syslog := true }) := by
  have hne : notEmpty "" = false := by decide
  have hnz : notZero 0 = false := by decide
  simp [deserializeDoc, docValidators, setIfPresent, setProtocols,
    checkValidator, hne, hnz, SettingTypeSet.empty, Ne.symm h1,
    Ne.symm h2, Ne.symm h3, Ne.symm h4, Ne.symm h5, Ne.symm h6,
    Ne.symm h7, Ne.symm h8, Ne.symm h9, Ne.symm h10, Ne.symm h11,
    Ne.symm h12, Ne.symm h13, Bool.not_ne_self]

/-- C10 witness: the probe document evaluated on the concrete sample
record. -/
theorem c10_witness :
    deserializeDoc sampleSettings (docValidators sampleSettings) =
      ({ sampleSettings with
          mqttReceiveTopic := ""
          mqttSendTopic := ""
          mqttOtaTopic := ""
          mqttUser := ""
          mqttRetain := !sampleSettings.mqttRetain
          rfReceiverPin := 0
          rfTransmitterPin := 0
          rfEchoMessages := !sampleSettings.rfEchoMessages
          rfProtocols := []
          otaUrl := ""
          serialLogLevel := ""
          webLogLevel := ""
          syslogLevel := ""
          syslogHost := ""
          syslogPort := 0 },
       { SettingTypeSet.empty with
          mqtt := true
          rfConfig := true
          rfEcho := true
          rfProtocol := true
          ota := true
          logging := true
          syslog := true }) :=
  c10_validator_map sampleSettings (by decide) (by decide) (by decide)
    (by decide) (by decide) (by decide) (by decide) (by decide)
    (by decide) (by decide) (by decide) (by decide) (by decide)

end MQTT433
